import Mathlib

/-!
Verification development for the Energy Monitoring API (`src/main.py`).

The program is a small HTTP service over a SQLite store with three tables
(`meters`, `meter_readings`, `meter_status`) and three handlers:

* `receive_meter_data` (POST /api/meter-data): parses the device timestamp,
  inserts one row into `meter_readings`, upserts `meter_status`, and commits
  both writes with a single `conn.commit()`; any exception is caught and
  returned as `{status: "error", message}`.
* `get_meters` (GET /api/meters): active meters left-joined with status.
* `get_meter_readings` (GET /api/meter/{id}/readings): up to 100 most recent
  readings within a lookback window, reconstructed into the nested shape.

The store is embedded as an explicit `DB` value; each handler is a pure
function of the store (and, where the code reads the wall clock, of an
explicit `now` parameter).  JSON numbers are modelled as `Rat` (the program
never computes with them, it only stores and returns them), Python `dict`s
as association lists with unique keys, and SQL `NULL` as `Option`.
-/

namespace EnergyMon

/-- JSON numeric values carried by the payload.  The program performs no
arithmetic on them, so exact rationals are a faithful stand-in. -/
abbrev Val := Rat

/-- A Python `dict` of nullable numbers (`Dict[str, Optional[float]]`),
modelled as an association list; Python dictionaries have unique keys. -/
abbrev Dict := List (String × Option Val)

/-- `m.get(k)` on a `Dict[str, Optional[float]]`: `None` when the key is
absent, otherwise the stored (possibly `None`) value. -/
def dget (m : Dict) (k : String) : Option Val := (m.lookup k).join

/-- `m.get(k) if m else None` as used for the optional `reactive_power` /
`apparent_power` mappings in `receive_meter_data`: a missing mapping and an
empty (falsy) mapping both yield `None`. -/
def optDget (om : Option Dict) (k : String) : Option Val :=
  match om with
  | none => none
  | some m => if m = [] then none else dget m k

/-- The `MeterData` pydantic model (src/main.py lines 13-23). -/
structure MeterData where
  meter_id : String
  timestamp : String
  location : String
  voltages : Dict
  currents : Dict
  power : Dict
  power_factors : Dict
  frequency : Option Val
  reactive_power : Option Dict := none
  apparent_power : Option Dict := none
deriving DecidableEq, Repr

/-! ### Calendar arithmetic

`datetime.fromisoformat` / `strftime` / SQLite `datetime('now', '-N hours')`
need proleptic-Gregorian calendar conversions.  `daysFromCivil` /
`civilFromDays` are the standard civil-calendar/day-count conversions. -/

/-- Gregorian leap-year predicate. -/
def isLeap (y : Int) : Bool := y % 4 = 0 && (y % 100 ≠ 0 || y % 400 = 0)

/-- Number of days in month `m` of year `y`. -/
def daysInMonth (y : Int) (m : Nat) : Nat :=
  if m = 2 then (if isLeap y then 29 else 28)
  else if m = 4 ∨ m = 6 ∨ m = 9 ∨ m = 11 then 30 else 31

/-- Days since 1970-01-01 of a civil date (proleptic Gregorian). -/
def daysFromCivil (y : Int) (m d : Nat) : Int :=
  let y' : Int := if m ≤ 2 then y - 1 else y
  let era : Int := Int.fdiv y' 400
  let yoe : Nat := (y' - era * 400).toNat
  let mp : Nat := if m > 2 then m - 3 else m + 9
  let doy : Nat := (153 * mp + 2) / 5 + d - 1
  let doe : Nat := yoe * 365 + yoe / 4 - yoe / 100 + doy
  era * 146097 + (doe : Int) - 719468

/-- Civil date (year, month, day) of a count of days since 1970-01-01. -/
def civilFromDays (z0 : Int) : Int × Nat × Nat :=
  let z : Int := z0 + 719468
  let era : Int := Int.fdiv z 146097
  let doe : Nat := (z - era * 146097).toNat
  let yoe : Nat := (doe - doe / 1460 + doe / 36524 - doe / 146096) / 365
  let y : Int := (yoe : Int) + era * 400
  let doy : Nat := doe - (365 * yoe + yoe / 4 - yoe / 100)
  let mp : Nat := (5 * doy + 2) / 153
  let d : Nat := doy - (153 * mp + 2) / 5 + 1
  let m : Nat := if mp < 10 then mp + 3 else mp - 9
  (if m ≤ 2 then y + 1 else y, m, d)

/-- A parsed (possibly offset-aware) datetime, as produced by
`datetime.fromisoformat`: calendar fields plus an optional UTC offset in
seconds (`None` for a naive datetime). -/
structure AwareDT where
  year : Int
  month : Nat
  day : Nat
  hour : Nat
  minute : Nat
  second : Nat
  offSec : Option Int := none
deriving DecidableEq, Repr

/-- Seconds since the epoch of the datetime's civil fields, ignoring any
offset (i.e. reading the fields as if they were UTC). -/
def toSecs (d : AwareDT) : Int :=
  daysFromCivil d.year d.month d.day * 86400 +
    (d.hour * 3600 + d.minute * 60 + d.second : Nat)

/-- The datetime whose civil fields render a given epoch-second count. -/
def ofSecs (t : Int) : AwareDT :=
  let days : Int := Int.fdiv t 86400
  let sod : Nat := (t - days * 86400).toNat
  let c := civilFromDays days
  { year := c.1, month := c.2.1, day := c.2.2
    hour := sod / 3600, minute := sod % 3600 / 60, second := sod % 60 }

/-- The instant a parsed datetime denotes, as epoch seconds in UTC: the
civil fields minus the UTC offset (a naive datetime is read as UTC). -/
def instant (d : AwareDT) : Int := toSecs d - (d.offSec.getD 0)

/-! ### ISO-8601 parsing and formatting -/

/-- Numeric value of a decimal digit character. -/
def digitVal (c : Char) : Option Nat :=
  if c.isDigit then some (c.toNat - 48) else none

/-- Read exactly two decimal digits. -/
def read2 : List Char → Option (Nat × List Char)
  | a :: b :: rest => do pure (10 * (← digitVal a) + (← digitVal b), rest)
  | _ => none

/-- Read exactly four decimal digits. -/
def read4 : List Char → Option (Nat × List Char)
  | a :: b :: c :: d :: rest => do
    pure (1000 * (← digitVal a) + 100 * (← digitVal b) + 10 * (← digitVal c)
      + (← digitVal d), rest)
  | _ => none

/-- Parse the optional trailing UTC offset `±HH:MM[:SS]` (entire rest of the
input); an empty rest means a naive datetime. -/
def readOffset : List Char → Option (Option Int)
  | [] => some none
  | c :: rest =>
    if c = '+' ∨ c = '-' then
      match read2 rest with
      | some (oh, ':' :: rest2) =>
        match read2 rest2 with
        | some (om, rest3) =>
          let osec : Option Nat :=
            match rest3 with
            | [] => some 0
            | ':' :: rest4 =>
              match read2 rest4 with
              | some (os, []) => some os
              | _ => none
            | _ => none
          match osec with
          | some os =>
            if oh ≤ 23 ∧ om ≤ 59 ∧ os ≤ 59 then
              let total : Int := (oh * 3600 + om * 60 + os : Nat)
              some (some (if c = '-' then -total else total))
            else none
          | none => none
        | none => none
      | _ => none
    else none

/-- Parse an optional fractional-second part `.d{1,6}` (the digits are
discarded: `strftime("%Y-%m-%d %H:%M:%S")` never renders them) followed by
the optional offset. -/
def readFracOffset : List Char → Option (Option Int)
  | '.' :: rest =>
    let ds := rest.takeWhile (fun c => c.isDigit)
    if 1 ≤ ds.length ∧ ds.length ≤ 6 then readOffset (rest.drop ds.length)
    else none
  | rest => readOffset rest

/-- Parse the time-of-day part after the date: empty (midnight, naive), or a
`T`/space separator then `HH:MM[:SS[.frac]][offset]`. -/
def readTime : List Char → Option (Nat × Nat × Nat × Option Int)
  | [] => some (0, 0, 0, none)
  | sep :: rest =>
    if sep = 'T' ∨ sep = ' ' then
      match read2 rest with
      | some (h, ':' :: rest2) =>
        match read2 rest2 with
        | some (mi, rest3) =>
          match rest3 with
          | ':' :: rest4 =>
            match read2 rest4 with
            | some (s, rest5) =>
              match readFracOffset rest5 with
              | some off => some (h, mi, s, off)
              | none => none
            | none => none
          | _ =>
            match readOffset rest3 with
            | some off => some (h, mi, 0, off)
            | none => none
        | none => none
      | _ => none
    else none

/-- Range-validity of the parsed fields, matching `datetime`'s constraints
(`MINYEAR = 1`, real month lengths, 24-hour clock). -/
def validDT (y : Int) (mo d h mi s : Nat) : Bool :=
  1 ≤ y && y ≤ 9999 && 1 ≤ mo && mo ≤ 12 && 1 ≤ d && d ≤ daysInMonth y mo &&
    h ≤ 23 && mi ≤ 59 && s ≤ 59

/-- `datetime.fromisoformat` on the extended ISO-8601 grammar the devices
use: `YYYY-MM-DD[(T| )HH:MM[:SS[.d{1,6}]]][±HH:MM[:SS]]`, with the fields
range-checked.  Anything outside this grammar is a parse failure. -/
def parseISO (s : String) : Option AwareDT :=
  match read4 s.data with
  | some (y, '-' :: r2) =>
    match read2 r2 with
    | some (mo, '-' :: r4) =>
      match read2 r4 with
      | some (d, r5) =>
        match readTime r5 with
        | some (h, mi, sec, off) =>
          if validDT y mo d h mi sec then
            some { year := y, month := mo, day := d
                   hour := h, minute := mi, second := sec, offSec := off }
          else none
        | none => none
      | none => none
    | _ => none
  | _ => none

/-- `s.replace("Z", "+00:00")` (src/main.py line 121); the pattern is a
single character, so a character-wise rewrite is exact. -/
def replaceZ (s : String) : String :=
  ⟨s.data.foldr
    (fun c acc =>
      if c = 'Z' then '+' :: '0' :: '0' :: ':' :: '0' :: '0' :: acc
      else c :: acc) []⟩

/-- Left-pad a numeral to two digits. -/
def pad2 (n : Nat) : String := if n < 10 then "0" ++ toString n else toString n

/-- Left-pad a numeral to four digits. -/
def pad4 (n : Nat) : String :=
  if n < 10 then "000" ++ toString n
  else if n < 100 then "00" ++ toString n
  else if n < 1000 then "0" ++ toString n
  else toString n

/-- Render a (possibly negative) year, four digits wide. -/
def fmtYear (y : Int) : String :=
  if y < 0 then "-" ++ pad4 y.natAbs else pad4 y.toNat

/-- `strftime("%Y-%m-%d %H:%M:%S")`: the civil fields rendered with no
offset and no fractional seconds. -/
def formatNaive (d : AwareDT) : String :=
  fmtYear d.year ++ "-" ++ pad2 d.month ++ "-" ++ pad2 d.day ++ " " ++
    pad2 d.hour ++ ":" ++ pad2 d.minute ++ ":" ++ pad2 d.second

/-- The whole of src/main.py line 121:
`datetime.fromisoformat(ts.replace("Z", "+00:00")).strftime("%Y-%m-%d %H:%M:%S")`.
`none` is the `ValueError` path. -/
def normalizeTimestamp (s : String) : Option String :=
  (parseISO (replaceZ s)).map formatNaive

/-! ### The store -/

/-- A row of the `meters` table (`created_at` is never read by any handler
and is omitted). -/
structure Meter where
  id : String
  description : String
  is_active : Bool := true
deriving DecidableEq, Repr

/-- A row of the `meter_readings` table: identification columns plus the 28
nullable measurement columns (src/main.py lines 40-62).  The surrogate
`id` and `created_at` are never read by any handler and are omitted; row
order in the list is insertion order. -/
structure ReadingRow where
  meter_id : String
  location : String
  timestamp : String
  voltage_r : Option Val := none
  voltage_y : Option Val := none
  voltage_b : Option Val := none
  voltage_avg : Option Val := none
  voltage_ry : Option Val := none
  voltage_yb : Option Val := none
  voltage_br : Option Val := none
  current_r : Option Val := none
  current_y : Option Val := none
  current_b : Option Val := none
  current_n : Option Val := none
  power_r : Option Val := none
  power_y : Option Val := none
  power_b : Option Val := none
  power_total : Option Val := none
  reactive_power_r : Option Val := none
  reactive_power_y : Option Val := none
  reactive_power_b : Option Val := none
  reactive_power_total : Option Val := none
  apparent_power_r : Option Val := none
  apparent_power_y : Option Val := none
  apparent_power_b : Option Val := none
  apparent_power_total : Option Val := none
  power_factor_r : Option Val := none
  power_factor_y : Option Val := none
  power_factor_b : Option Val := none
  power_factor_avg : Option Val := none
  frequency : Option Val := none
deriving DecidableEq, Repr

/-- A row of the `meter_status` table, keyed by `meter_id` (`created_at` is
never read by any handler and is omitted). -/
structure StatusRow where
  meter_id : String
  online : Bool
  last_update : Option String
deriving DecidableEq, Repr

/-- The SQLite database: the three tables. -/
structure DB where
  meters : List Meter
  meter_readings : List ReadingRow
  meter_status : List StatusRow
deriving DecidableEq, Repr

/-- The database after `init_database()`: the four seeded meters (with
`is_active` defaulting to true), no readings, no status rows. -/
def initDB : DB :=
  { meters :=
      [⟨"meter_001", "Primary energy meter", true⟩,
       ⟨"meter_002", "Secondary meter A", true⟩,
       ⟨"meter_003", "Secondary meter B", true⟩,
       ⟨"meter_004", "Secondary meter C", true⟩],
    meter_readings := [], meter_status := [] }

/-! ### Ingestion handler -/

/-- The field-extraction step of `receive_meter_data` (src/main.py lines
131-170): the 28 measurement columns are `dict.get` on the fixed mnemonic
keys, the optional mappings go through the `m.get(k) if m else None`
pattern, and `ts` is the already-normalized timestamp string. -/
def mkReadingRow (data : MeterData) (ts : String) : ReadingRow :=
  { meter_id := data.meter_id
    location := data.location
    timestamp := ts
    voltage_r := dget data.voltages "V_RN"
    voltage_y := dget data.voltages "V_YN"
    voltage_b := dget data.voltages "V_BN"
    voltage_avg := dget data.voltages "V_Avg"
    voltage_ry := dget data.voltages "V_RY"
    voltage_yb := dget data.voltages "V_YB"
    voltage_br := dget data.voltages "V_BR"
    current_r := dget data.currents "I_R"
    current_y := dget data.currents "I_Y"
    current_b := dget data.currents "I_B"
    current_n := dget data.currents "I_N"
    power_r := dget data.power "P_R"
    power_y := dget data.power "P_Y"
    power_b := dget data.power "P_B"
    power_total := dget data.power "P_Total"
    reactive_power_r := optDget data.reactive_power "Q_R"
    reactive_power_y := optDget data.reactive_power "Q_Y"
    reactive_power_b := optDget data.reactive_power "Q_B"
    reactive_power_total := optDget data.reactive_power "Q_Total"
    apparent_power_r := optDget data.apparent_power "S_R"
    apparent_power_y := optDget data.apparent_power "S_Y"
    apparent_power_b := optDget data.apparent_power "S_B"
    apparent_power_total := optDget data.apparent_power "S_Total"
    power_factor_r := dget data.power_factors "PF_R"
    power_factor_y := dget data.power_factors "PF_Y"
    power_factor_b := dget data.power_factors "PF_B"
    power_factor_avg := dget data.power_factors "PF_Avg"
    frequency := data.frequency }

/-- `INSERT INTO meter_status ... ON CONFLICT(meter_id) DO UPDATE SET
online = ?, last_update = ?` (src/main.py lines 175-180): if a row with
this primary key exists its `online`/`last_update` are overwritten,
otherwise a new row is appended. -/
def upsertStatus (l : List StatusRow) (mid : String) (nowS : String) :
    List StatusRow :=
  if l.any (fun r => r.meter_id = mid) then
    l.map (fun r =>
      if r.meter_id = mid then { r with online := true, last_update := some nowS }
      else r)
  else l ++ [⟨mid, true, some nowS⟩]

/-- The `{status, message}` JSON body every handler answers with. -/
structure ApiResponse where
  status : String
  message : String
deriving DecidableEq, Repr

/-- `receive_meter_data` (src/main.py lines 116-191).  `now` is the wall
clock read by `datetime.utcnow()`; `insertFails` / `upsertFails` model the
store raising on the corresponding `cursor.execute`.  Both writes sit in
one implicit transaction committed by the single `conn.commit()` on line
181, so on any caught exception nothing is durably changed and the handler
returns `{status: "error", message: str(e)}`; on success it returns
`{status: "success", ...}` with the reading appended and the status
upserted. -/
def receive_meter_data (db : DB) (data : MeterData) (now : AwareDT)
    (insertFails upsertFails : Bool) : DB × ApiResponse :=
  match normalizeTimestamp data.timestamp with
  | none =>
    (db, ⟨"error", "Invalid isoformat string: " ++ data.timestamp⟩)
  | some ts =>
    if insertFails then (db, ⟨"error", "database error on reading insert"⟩)
    else if upsertFails then (db, ⟨"error", "database error on status upsert"⟩)
    else
      ({ db with
          meter_readings := db.meter_readings ++ [mkReadingRow data ts],
          meter_status :=
            upsertStatus db.meter_status data.meter_id (formatNaive now) },
       ⟨"success", "Data saved successfully"⟩)

/-! ### Meter listing handler -/

/-- One element of the `GET /api/meters` response. -/
structure MeterOut where
  meter_id : String
  online : Bool
  last_update : Option String
deriving DecidableEq, Repr

/-- `get_meters` (src/main.py lines 193-220): active meters left-joined on
the status primary key; a missing status row yields `online = false`,
`last_update = null`. -/
def get_meters (db : DB) : List MeterOut :=
  (db.meters.filter (fun m => m.is_active)).map (fun m =>
    match db.meter_status.find? (fun s => s.meter_id == m.id) with
    | some s => ⟨m.id, s.online, s.last_update⟩
    | none => ⟨m.id, false, none⟩)

/-! ### Readings handler -/

/-- One element of the readings response: the nested payload shape
reconstructed from the flat columns (src/main.py lines 244-265). -/
structure ReadingOut where
  timestamp : String
  voltages : Dict
  currents : Dict
  power : Dict
  reactive_power : Dict
  apparent_power : Dict
  power_factors : Dict
  frequency : Option Val
deriving DecidableEq, Repr

/-- The flat-row-to-nested-shape reconstruction of the readings handler. -/
def reconstruct (r : ReadingRow) : ReadingOut :=
  { timestamp := r.timestamp
    voltages :=
      [("V_RN", r.voltage_r), ("V_YN", r.voltage_y), ("V_BN", r.voltage_b),
       ("V_Avg", r.voltage_avg), ("V_RY", r.voltage_ry),
       ("V_YB", r.voltage_yb), ("V_BR", r.voltage_br)]
    currents :=
      [("I_R", r.current_r), ("I_Y", r.current_y), ("I_B", r.current_b),
       ("I_N", r.current_n)]
    power :=
      [("P_R", r.power_r), ("P_Y", r.power_y), ("P_B", r.power_b),
       ("P_Total", r.power_total)]
    reactive_power :=
      [("Q_R", r.reactive_power_r), ("Q_Y", r.reactive_power_y),
       ("Q_B", r.reactive_power_b), ("Q_Total", r.reactive_power_total)]
    apparent_power :=
      [("S_R", r.apparent_power_r), ("S_Y", r.apparent_power_y),
       ("S_B", r.apparent_power_b), ("S_Total", r.apparent_power_total)]
    power_factors :=
      [("PF_R", r.power_factor_r), ("PF_Y", r.power_factor_y),
       ("PF_B", r.power_factor_b), ("PF_Avg", r.power_factor_avg)]
    frequency := r.frequency }

/-- Lexicographic order on character lists: SQLite compares TEXT values
with `memcmp` on their UTF-8 bytes, which on code points is this order. -/
def lexLeB : List Char → List Char → Bool
  | [], _ => true
  | _ :: _, [] => false
  | a :: as, b :: bs => if a < b then true else if b < a then false else lexLeB as bs

/-- The SQLite TEXT comparison `a <= b`. -/
def strLe (a b : String) : Bool := lexLeB a.data b.data

theorem lexLeB_total : ∀ a b, lexLeB a b = true ∨ lexLeB b a = true
  | [], _ => Or.inl rfl
  | _ :: _, [] => Or.inr rfl
  | a :: as, b :: bs => by
    by_cases h1 : a < b
    · exact Or.inl (by simp [lexLeB, h1])
    · by_cases h2 : b < a
      · exact Or.inr (by simp [lexLeB, h2])
      · rcases lexLeB_total as bs with h | h
        · exact Or.inl (by simp [lexLeB, h1, h2, h])
        · exact Or.inr (by simp [lexLeB, h1, h2, h])

theorem lexLeB_trans :
    ∀ {a b c}, lexLeB a b = true → lexLeB b c = true → lexLeB a c = true
  | [], _, _, _, _ => rfl
  | _ :: _, [], _, hab, _ => by simp [lexLeB] at hab
  | _ :: _, _ :: _, [], _, hbc => by simp [lexLeB] at hbc
  | a :: as, b :: bs, c :: cs, hab, hbc => by
    by_cases h1 : a < b
    · by_cases h2 : b < c
      · simp [lexLeB, lt_trans h1 h2]
      · by_cases h3 : c < b
        · simp [lexLeB, h2, h3] at hbc
        · have hbc' : b = c := le_antisymm (not_lt.mp h3) (not_lt.mp h2)
          subst hbc'
          simp [lexLeB, h1]
    · by_cases h2 : b < a
      · simp [lexLeB, h1, h2] at hab
      · have hab' : a = b := le_antisymm (not_lt.mp h2) (not_lt.mp h1)
        subst hab'
        simp only [lexLeB, if_neg h1, if_neg h2] at hab
        by_cases h3 : a < c
        · simp [lexLeB, h3]
        · by_cases h4 : c < a
          · simp [lexLeB, h3, h4] at hbc
          · simp only [lexLeB, if_neg h3, if_neg h4] at hbc ⊢
            exact lexLeB_trans hab hbc

/-- Newest-first order on rows: SQLite `ORDER BY timestamp DESC` compares
the stored text timestamps, which for the canonical
`YYYY-MM-DD HH:MM:SS` form is also the chronological order. -/
def tsDesc (a b : ReadingRow) : Prop := strLe b.timestamp a.timestamp = true

instance : DecidableRel tsDesc := fun a b =>
  inferInstanceAs (Decidable (strLe b.timestamp a.timestamp = true))

instance : IsTotal ReadingRow tsDesc :=
  ⟨fun a b => lexLeB_total b.timestamp.data a.timestamp.data⟩

instance : IsTrans ReadingRow tsDesc :=
  ⟨fun _ _ _ hab hbc => lexLeB_trans hbc hab⟩

/-- SQLite `datetime('now', '-N hours')` for the parameter string
`f'-{hours} hours'`: for `hours ≥ 0` this is `now` shifted back by
`hours` hours rendered canonically; for a negative `hours` the Python
f-string produces the modifier `--N hours`, which SQLite rejects,
making the expression NULL (`none`). -/
def cutoffString (now : AwareDT) (hours : Int) : Option String :=
  if hours < 0 then none
  else some (formatNaive (ofSecs (toSecs now - hours * 3600)))

/-- The full readings response body. -/
structure ReadingsResponse where
  meter_id : String
  readings : List ReadingOut
deriving DecidableEq, Repr

/-- `get_meter_readings` (src/main.py lines 222-274): rows of this meter
with `timestamp >= datetime('now', '-N hours')` (a NULL cutoff matches
nothing), ordered newest-first, limited to 100, each reconstructed into
the nested shape.  `now` is the store clock. -/
def get_meter_readings (db : DB) (mid : String) (hours : Int)
    (now : AwareDT) : ReadingsResponse :=
  match cutoffString now hours with
  | none => ⟨mid, []⟩
  | some c =>
    let rows := db.meter_readings.filter
      (fun r => r.meter_id == mid && strLe c r.timestamp)
    ⟨mid, ((rows.insertionSort tsDesc).take 100).map reconstruct⟩

/-! ### The system as a transition system

For the temporal claim (`online` latched true) the reachable behaviours
are sequences of the three handler calls; the two query handlers never
write the store. -/

/-- One external operation against the service. -/
inductive Op where
  | ingest (data : MeterData) (now : AwareDT) (insertFails upsertFails : Bool)
  | listMeters
  | readings (mid : String) (hours : Int) (now : AwareDT)

/-- The store after an operation: only ingestion writes. -/
def applyOp (db : DB) : Op → DB
  | .ingest data now f1 f2 => (receive_meter_data db data now f1 f2).1
  | .listMeters => db
  | .readings _ _ _ => db

/-- The status row a meter currently has, if any. -/
def statusOf (db : DB) (mid : String) : Option StatusRow :=
  db.meter_status.find? (fun s => s.meter_id == mid)

/-- The status table never holds two rows for one primary key. -/
def statusKeyUnique (db : DB) : Prop :=
  ∀ mid, db.meter_status.countP (fun s => s.meter_id == mid) ≤ 1

/-! ### Supporting lemmas -/

theorem receive_success_cases (db : DB) (data : MeterData) (now : AwareDT)
    (f1 f2 : Bool)
    (hsucc : (receive_meter_data db data now f1 f2).2.status = "success") :
    ∃ ts, normalizeTimestamp data.timestamp = some ts ∧ f1 = false ∧ f2 = false ∧
      receive_meter_data db data now f1 f2 =
        ({ db with
            meter_readings := db.meter_readings ++ [mkReadingRow data ts],
            meter_status :=
              upsertStatus db.meter_status data.meter_id (formatNaive now) },
         ⟨"success", "Data saved successfully"⟩) := by
  cases h : normalizeTimestamp data.timestamp with
  | none => simp [receive_meter_data, h] at hsucc
  | some ts =>
    cases f1 with
    | true => simp [receive_meter_data, h] at hsucc
    | false =>
      cases f2 with
      | true => simp [receive_meter_data, h] at hsucc
      | false => exact ⟨ts, rfl, rfl, rfl, by simp [receive_meter_data, h]⟩

theorem receive_db_shape (db : DB) (data : MeterData) (now : AwareDT)
    (f1 f2 : Bool) :
    (receive_meter_data db data now f1 f2).1 = db ∨
    (receive_meter_data db data now f1 f2).1.meter_status =
      upsertStatus db.meter_status data.meter_id (formatNaive now) := by
  cases h : normalizeTimestamp data.timestamp with
  | none => exact Or.inl (by simp [receive_meter_data, h])
  | some ts =>
    cases f1 with
    | true => exact Or.inl (by simp [receive_meter_data, h])
    | false =>
      cases f2 with
      | true => exact Or.inl (by simp [receive_meter_data, h])
      | false => exact Or.inr (by simp [receive_meter_data, h])

theorem upsertStatus_find?_self (l : List StatusRow) (mid nowS : String) :
    (upsertStatus l mid nowS).find? (fun s => s.meter_id == mid) =
      some ⟨mid, true, some nowS⟩ := by
  unfold upsertStatus
  by_cases hany : ∃ r ∈ l, r.meter_id = mid
  · rw [if_pos (by simpa using hany)]
    rw [List.find?_map]
    have hpred : ((fun s : StatusRow => s.meter_id == mid) ∘
        fun r : StatusRow =>
          if r.meter_id = mid then { r with online := true, last_update := some nowS }
          else r) = fun s : StatusRow => s.meter_id == mid := by
      funext r
      by_cases h : r.meter_id = mid <;> simp [h]
    rw [hpred]
    obtain ⟨r, hrmem, hrmid⟩ := hany
    have : (l.find? fun s : StatusRow => s.meter_id == mid).isSome := by
      rw [List.find?_isSome]
      exact ⟨r, hrmem, by simpa using hrmid⟩
    obtain ⟨r0, hr0⟩ := Option.isSome_iff_exists.mp this
    have hr0mid : r0.meter_id = mid := by simpa using List.find?_some hr0
    rw [hr0]
    simp [hr0mid]
  · rw [if_neg (by simpa using hany)]
    rw [List.find?_append]
    have : l.find? (fun s : StatusRow => s.meter_id == mid) = none := by
      rw [List.find?_eq_none]
      intro x hx
      simp only [beq_iff_eq]
      exact fun hmid => hany ⟨x, hx, hmid⟩
    simp [this]

theorem upsertStatus_find?_other (l : List StatusRow) (mid' nowS mid : String)
    (hne : mid' ≠ mid) :
    (upsertStatus l mid' nowS).find? (fun s => s.meter_id == mid) =
      l.find? (fun s => s.meter_id == mid) := by
  unfold upsertStatus
  by_cases hany : l.any (fun r => r.meter_id = mid')
  · rw [if_pos hany, List.find?_map]
    have hpred : ((fun s : StatusRow => s.meter_id == mid) ∘
        fun r : StatusRow =>
          if r.meter_id = mid' then { r with online := true, last_update := some nowS }
          else r) = fun s : StatusRow => s.meter_id == mid := by
      funext r
      by_cases h : r.meter_id = mid' <;> simp [h]
    rw [hpred]
    cases hf : l.find? (fun s : StatusRow => s.meter_id == mid) with
    | none => rfl
    | some r =>
      have hrmid : r.meter_id = mid := by simpa using List.find?_some hf
      have hne2 : r.meter_id ≠ mid' := fun hh => hne (hh.symm.trans hrmid)
      simp [if_neg hne2]
  · rw [if_neg hany, List.find?_append]
    have hb : (mid' == mid) = false := by simpa using hne
    have : List.find? (fun s : StatusRow => s.meter_id == mid)
        [(⟨mid', true, some nowS⟩ : StatusRow)] = none := by
      simp [List.find?, hb]
    cases l.find? (fun s : StatusRow => s.meter_id == mid) <;> simp [this]

theorem upsertStatus_countP_self (l : List StatusRow) (mid nowS : String)
    (h : l.countP (fun s => s.meter_id == mid) ≤ 1) :
    (upsertStatus l mid nowS).countP (fun s => s.meter_id == mid) = 1 := by
  unfold upsertStatus
  by_cases hany : l.any (fun r => r.meter_id = mid)
  · rw [if_pos hany, List.countP_map]
    have hpred : ((fun s : StatusRow => s.meter_id == mid) ∘
        fun r : StatusRow =>
          if r.meter_id = mid then { r with online := true, last_update := some nowS }
          else r) = fun s : StatusRow => s.meter_id == mid := by
      funext r
      by_cases hr : r.meter_id = mid <;> simp [hr]
    rw [hpred]
    have hpos : 0 < l.countP (fun s : StatusRow => s.meter_id == mid) := by
      rw [List.countP_pos_iff]
      obtain ⟨r, hrmem, hrmid⟩ := List.any_eq_true.mp hany
      exact ⟨r, hrmem, by simpa using hrmid⟩
    omega
  · rw [if_neg hany, List.countP_append]
    have hzero : l.countP (fun s : StatusRow => s.meter_id == mid) = 0 := by
      rw [List.countP_eq_zero]
      intro x hx hmid
      exact hany (List.any_eq_true.mpr ⟨x, hx, by simpa using hmid⟩)
    simp [hzero, List.countP_cons]

theorem upsertStatus_countP_le (l : List StatusRow) (mid' nowS mid : String)
    (h : l.countP (fun s => s.meter_id == mid) ≤ 1) :
    (upsertStatus l mid' nowS).countP (fun s => s.meter_id == mid) ≤ 1 := by
  by_cases heq : mid' = mid
  · subst heq
    exact le_of_eq (upsertStatus_countP_self l mid' nowS h)
  · unfold upsertStatus
    by_cases hany : l.any (fun r => r.meter_id = mid')
    · rw [if_pos hany, List.countP_map]
      have hpred : ((fun s : StatusRow => s.meter_id == mid) ∘
          fun r : StatusRow =>
            if r.meter_id = mid' then { r with online := true, last_update := some nowS }
            else r) = fun s : StatusRow => s.meter_id == mid := by
        funext r
        by_cases hr : r.meter_id = mid' <;> simp [hr]
      rw [hpred]; exact h
    · rw [if_neg hany, List.countP_append]
      have : List.countP (fun s : StatusRow => s.meter_id == mid)
          [(⟨mid', true, some nowS⟩ : StatusRow)] = 0 := by
        simp [List.countP_cons, heq]
      omega

theorem upsertStatus_mem_other (l : List StatusRow) (mid nowS : String)
    (r : StatusRow) (hr : r ∈ l) (hne : r.meter_id ≠ mid) :
    r ∈ upsertStatus l mid nowS := by
  unfold upsertStatus
  by_cases hany : l.any (fun s => s.meter_id = mid)
  · rw [if_pos hany]
    exact List.mem_map.mpr ⟨r, hr, by simp [if_neg hne]⟩
  · rw [if_neg hany]
    exact List.mem_append_left _ hr

theorem statusKeyUnique_applyOp (db : DB) (op : Op)
    (h : statusKeyUnique db) : statusKeyUnique (applyOp db op) := by
  cases op with
  | listMeters => exact h
  | readings mid hours now => exact h
  | ingest data now f1 f2 =>
    rcases receive_db_shape db data now f1 f2 with hdb | hdb
    · simpa [applyOp, hdb] using h
    · intro mid
      simp only [applyOp, hdb]
      exact upsertStatus_countP_le _ _ _ _ (h mid)

theorem statusKeyUnique_foldl (db : DB) (ops : List Op)
    (h : statusKeyUnique db) : statusKeyUnique (ops.foldl applyOp db) := by
  induction ops generalizing db with
  | nil => exact h
  | cons op ops ih => exact ih _ (statusKeyUnique_applyOp db op h)

theorem dget_cons_ne {k k' : String} {v : Option Val} {m : Dict}
    (h : k ≠ k') : dget ((k, v) :: m) k' = dget m k' := by
  have hb : (k' == k) = false := by simpa using fun hh => h hh.symm
  simp [dget, List.lookup, hb]

theorem optDget_some (m : Dict) (k : String) :
    optDget (some m) k = dget m k := by
  by_cases h : m = [] <;> simp [optDget, h, dget]

/-- The fixed mnemonic-key table for the four always-present measurement
groups: payload key, payload group, and the stored column it lands in. -/
def fieldTable :
    List (String × (MeterData → Dict) × (ReadingRow → Option Val)) :=
  [("V_RN", (fun d => d.voltages), (fun r => r.voltage_r)),
   ("V_YN", (fun d => d.voltages), (fun r => r.voltage_y)),
   ("V_BN", (fun d => d.voltages), (fun r => r.voltage_b)),
   ("V_Avg", (fun d => d.voltages), (fun r => r.voltage_avg)),
   ("V_RY", (fun d => d.voltages), (fun r => r.voltage_ry)),
   ("V_YB", (fun d => d.voltages), (fun r => r.voltage_yb)),
   ("V_BR", (fun d => d.voltages), (fun r => r.voltage_br)),
   ("I_R", (fun d => d.currents), (fun r => r.current_r)),
   ("I_Y", (fun d => d.currents), (fun r => r.current_y)),
   ("I_B", (fun d => d.currents), (fun r => r.current_b)),
   ("I_N", (fun d => d.currents), (fun r => r.current_n)),
   ("P_R", (fun d => d.power), (fun r => r.power_r)),
   ("P_Y", (fun d => d.power), (fun r => r.power_y)),
   ("P_B", (fun d => d.power), (fun r => r.power_b)),
   ("P_Total", (fun d => d.power), (fun r => r.power_total)),
   ("PF_R", (fun d => d.power_factors), (fun r => r.power_factor_r)),
   ("PF_Y", (fun d => d.power_factors), (fun r => r.power_factor_y)),
   ("PF_B", (fun d => d.power_factors), (fun r => r.power_factor_b)),
   ("PF_Avg", (fun d => d.power_factors), (fun r => r.power_factor_avg))]

/-- The mnemonic-key table for the two optional measurement groups. -/
def optFieldTable :
    List (String × (MeterData → Option Dict) × (ReadingRow → Option Val)) :=
  [("Q_R", (fun d => d.reactive_power), (fun r => r.reactive_power_r)),
   ("Q_Y", (fun d => d.reactive_power), (fun r => r.reactive_power_y)),
   ("Q_B", (fun d => d.reactive_power), (fun r => r.reactive_power_b)),
   ("Q_Total", (fun d => d.reactive_power), (fun r => r.reactive_power_total)),
   ("S_R", (fun d => d.apparent_power), (fun r => r.apparent_power_r)),
   ("S_Y", (fun d => d.apparent_power), (fun r => r.apparent_power_y)),
   ("S_B", (fun d => d.apparent_power), (fun r => r.apparent_power_b)),
   ("S_Total", (fun d => d.apparent_power), (fun r => r.apparent_power_total))]

/-! ### Concrete fixtures used by the witnesses -/

/-- The worked example payload from the specification (§8). -/
def demoData : MeterData :=
  { meter_id := "meter_001", timestamp := "2024-01-01T12:00:00Z",
    location := "Main",
    voltages := [("V_RN", some 230)],
    currents := [("I_R", some 5)],
    power := [("P_Total", some 1150)],
    power_factors := [("PF_Avg", some 1)],
    frequency := some 50 }

/-- A wall clock a few seconds after the demo payload's sample time. -/
def demoNow : AwareDT := ⟨2024, 1, 1, 12, 0, 5, none⟩

/-- A store clock one hour later, for querying the demo payload back. -/
def demoQNow : AwareDT := ⟨2024, 1, 1, 13, 0, 0, none⟩

/-- The demo payload with an unparseable timestamp. -/
def badData : MeterData := { demoData with timestamp := "not-a-timestamp" }

/-- The store after successfully ingesting the demo payload. -/
def demoDB : DB := (receive_meter_data initDB demoData demoNow false false).1

/-- A reading row one day newer than the crowd-out payload's sample. -/
def crowdRow : ReadingRow :=
  { meter_id := "m1", location := "L", timestamp := "2025-01-02 00:00:00" }

/-- A store already holding 100 readings for meter `m1`, all newer than
the payload about to be ingested. -/
def crowdedDB : DB := ⟨[], List.replicate 100 crowdRow, []⟩

/-- A valid payload whose sample time is older than every row of
`crowdedDB`. -/
def cePayload : MeterData :=
  { meter_id := "m1", timestamp := "2025-01-01T00:00:00Z", location := "Main",
    voltages := [("V_RN", some 230)], currents := [], power := [],
    power_factors := [], frequency := some 50 }

/-- The store clock for the crowd-out scenario. -/
def ceNow : AwareDT := ⟨2025, 1, 2, 0, 30, 0, none⟩

/-! ### The claims -/

/-- C7: any exception raised during ingestion (timestamp parse failure or a
failure of either store write) is caught and surfaced as a structured
`{status, message}` response — the handler is a total function, never a
transport-level fault; the status is `"error"` exactly on those failure
conditions and `"success"` otherwise, and the message is never empty. -/
theorem c7_structured_errors (db : DB) (data : MeterData) (now : AwareDT)
    (f1 f2 : Bool) :
    ((receive_meter_data db data now f1 f2).2.status = "success" ∨
      (receive_meter_data db data now f1 f2).2.status = "error") ∧
    ((receive_meter_data db data now f1 f2).2.status = "error" ↔
      normalizeTimestamp data.timestamp = none ∨ f1 = true ∨ f2 = true) ∧
    (receive_meter_data db data now f1 f2).2.message.length ≠ 0 := by
  have hpre : ("Invalid isoformat string: " : String).length = 26 := by decide
  cases h : normalizeTimestamp data.timestamp with
  | none =>
    refine ⟨Or.inr (by simp [receive_meter_data, h]),
      by simp [receive_meter_data, h], ?_⟩
    simp only [receive_meter_data, h, String.length_append]
    omega
  | some ts =>
    cases f1 <;> cases f2 <;>
      refine ⟨by simp [receive_meter_data, h],
        by simp [receive_meter_data, h],
        by simp [receive_meter_data, h]; decide⟩

/-- C10: ingestion is atomic with respect to failure — the reading insert
and the status upsert share the single `conn.commit()`, so whenever the
response has status `"error"` the store is unchanged. -/
theorem c10_error_leaves_store_unchanged (db : DB) (data : MeterData)
    (now : AwareDT) (f1 f2 : Bool)
    (herr : (receive_meter_data db data now f1 f2).2.status = "error") :
    (receive_meter_data db data now f1 f2).1 = db := by
  cases h : normalizeTimestamp data.timestamp with
  | none => simp [receive_meter_data, h]
  | some ts =>
    cases f1 with
    | true => simp [receive_meter_data, h]
    | false =>
      cases f2 with
      | true => simp [receive_meter_data, h]
      | false => simp [receive_meter_data, h] at herr

theorem c10_error_leaves_store_unchanged_witness :
    (receive_meter_data initDB badData demoNow false false).2.status = "error" ∧
    (receive_meter_data initDB badData demoNow false false).1 = initDB :=
  ⟨by decide,
   c10_error_leaves_store_unchanged initDB badData demoNow false false (by decide)⟩

/-- C2 counterexample: the code does not convert a nonzero UTC offset.  For
input `2024-01-01T12:00:00+05:00` the stored string is
`2024-01-01 12:00:00` (the offset is simply dropped), while that instant
expressed in UTC is `2024-01-01 07:00:00` — so the stored string does not
denote the input instant in UTC, refuting the claim as stated. -/
theorem c2_counterexample :
    parseISO (replaceZ "2024-01-01T12:00:00+05:00") =
      some ⟨2024, 1, 1, 12, 0, 0, some 18000⟩ ∧
    normalizeTimestamp "2024-01-01T12:00:00+05:00" =
      some "2024-01-01 12:00:00" ∧
    instant ⟨2024, 1, 1, 12, 0, 0, some 18000⟩ ≠
      toSecs ⟨2024, 1, 1, 12, 0, 0, some 18000⟩ ∧
    formatNaive (ofSecs (instant ⟨2024, 1, 1, 12, 0, 0, some 18000⟩)) =
      "2024-01-01 07:00:00" := by
  decide

/-- C2 (amended): the stored reading timestamp is the parsed datetime's
calendar fields rendered as `YYYY-MM-DD HH:MM:SS` with the UTC offset
discarded (not converted); for an input whose offset is `+00:00` — in
particular a trailing literal `Z`, which is rewritten to `+00:00` before
parsing — or absent, those fields do denote the input instant in UTC; and
a timestamp that fails to parse surfaces as an ingestion error. -/
theorem c2_stored_timestamp (db : DB) (data : MeterData) (now : AwareDT)
    (f1 f2 : Bool) :
    (∀ d, parseISO (replaceZ data.timestamp) = some d →
      (receive_meter_data db data now false false).1.meter_readings =
        db.meter_readings ++ [mkReadingRow data (formatNaive d)] ∧
      ((d.offSec = some 0 ∨ d.offSec = none) → toSecs d = instant d)) ∧
    (normalizeTimestamp data.timestamp = none →
      (receive_meter_data db data now f1 f2).2.status = "error") := by
  constructor
  · intro d hd
    have hts : normalizeTimestamp data.timestamp = some (formatNaive d) := by
      simp [normalizeTimestamp, hd]
    refine ⟨by simp [receive_meter_data, hts], ?_⟩
    rintro (hoff | hoff) <;> simp [instant, hoff]
  · intro h
    cases f1 <;> cases f2 <;> simp [receive_meter_data, h]

theorem c2_stored_timestamp_witness :
    (receive_meter_data initDB demoData demoNow false false).1.meter_readings =
      initDB.meter_readings ++
        [mkReadingRow demoData (formatNaive ⟨2024, 1, 1, 12, 0, 0, some 0⟩)] ∧
    toSecs ⟨2024, 1, 1, 12, 0, 0, some 0⟩ =
      instant ⟨2024, 1, 1, 12, 0, 0, some 0⟩ := by
  have h := (c2_stored_timestamp initDB demoData demoNow false false).1
    ⟨2024, 1, 1, 12, 0, 0, some 0⟩ (by decide)
  exact ⟨h.1, h.2 (Or.inl rfl)⟩

/-- C8: a readings query for a meter with no stored readings returns the
empty response — and the handler reads only the readings table, so an
unknown `meter_id` (absent from `meters`) is indistinguishable from a
known meter with zero matching readings. -/
theorem c8_unknown_meter_empty (db : DB) (mid : String) (hours : Int)
    (now : AwareDT)
    (hnone : ∀ r ∈ db.meter_readings, r.meter_id ≠ mid) :
    get_meter_readings db mid hours now = ⟨mid, []⟩ ∧
    ∀ (ms : List Meter) (st : List StatusRow),
      get_meter_readings ⟨ms, db.meter_readings, st⟩ mid hours now =
        get_meter_readings db mid hours now := by
  refine ⟨?_, fun ms st => rfl⟩
  cases h : cutoffString now hours with
  | none => simp [get_meter_readings, h]
  | some c =>
    have hfil : db.meter_readings.filter
        (fun r => r.meter_id == mid && strLe c r.timestamp) = [] := by
      rw [List.filter_eq_nil_iff]
      intro r hr
      simp [hnone r hr]
    simp [get_meter_readings, h, hfil]

theorem c8_unknown_meter_empty_witness :
    get_meter_readings demoDB "meter_002" 24 demoQNow = ⟨"meter_002", []⟩ :=
  (c8_unknown_meter_empty demoDB "meter_002" 24 demoQNow (by decide)).1

/-- C3: every successful ingestion upserts the payload's status row with
`online = true` and `last_update` equal to the wall clock passed to the
handler (the device-reported timestamp plays no role in the equality);
given the primary-key invariant (at most one row per `meter_id`), the
table afterwards has exactly one row for this meter, rows of other meters
are untouched, and the invariant holds in every state reachable from the
initial database — so any number of ingestions keep a single row. -/
theorem c3_status_upsert (db : DB) (data : MeterData) (now : AwareDT)
    (f1 f2 : Bool)
    (hkey : db.meter_status.countP (fun s => s.meter_id == data.meter_id) ≤ 1)
    (hsucc : (receive_meter_data db data now f1 f2).2.status = "success") :
    statusOf (receive_meter_data db data now f1 f2).1 data.meter_id =
      some ⟨data.meter_id, true, some (formatNaive now)⟩ ∧
    (receive_meter_data db data now f1 f2).1.meter_status.countP
      (fun s => s.meter_id == data.meter_id) = 1 ∧
    (∀ r ∈ db.meter_status, r.meter_id ≠ data.meter_id →
      r ∈ (receive_meter_data db data now f1 f2).1.meter_status) ∧
    (∀ ops : List Op, statusKeyUnique (ops.foldl applyOp initDB)) := by
  obtain ⟨ts, hts, hf1, hf2, heq⟩ :=
    receive_success_cases db data now f1 f2 hsucc
  rw [heq]
  refine ⟨upsertStatus_find?_self _ _ _,
    upsertStatus_countP_self _ _ _ hkey,
    fun r hr hne => upsertStatus_mem_other _ _ _ r hr hne, ?_⟩
  intro ops
  exact statusKeyUnique_foldl initDB ops (fun mid => by simp [initDB])

theorem c3_status_upsert_witness :
    statusOf (receive_meter_data initDB demoData demoNow false false).1
        "meter_001" =
      some ⟨"meter_001", true, some (formatNaive demoNow)⟩ ∧
    (receive_meter_data initDB demoData demoNow false false).1.meter_status.countP
      (fun s => s.meter_id == "meter_001") = 1 := by
  have h := c3_status_upsert initDB demoData demoNow false false
    (by decide) (by decide)
  exact ⟨h.1, h.2.1⟩

/-- C9: `online` is latched — once a meter's status row carries
`online = true`, no reachable sequence of ingestion and query operations
ever produces a state where it is false: the queries do not write, and the
upsert only ever writes `online = true`. -/
theorem c9_online_latched (db : DB) (ops : List Op) (mid : String)
    (h : ∃ s, statusOf db mid = some s ∧ s.online = true) :
    ∃ s, statusOf (ops.foldl applyOp db) mid = some s ∧ s.online = true := by
  induction ops generalizing db with
  | nil => exact h
  | cons op ops ih =>
    refine ih (applyOp db op) ?_
    obtain ⟨s, hs, hon⟩ := h
    cases op with
    | listMeters => exact ⟨s, hs, hon⟩
    | readings mid' hours now => exact ⟨s, hs, hon⟩
    | ingest data now f1 f2 =>
      rcases receive_db_shape db data now f1 f2 with hdb | hdb
      · exact ⟨s, by simpa [applyOp, hdb] using hs, hon⟩
      · by_cases hmid : data.meter_id = mid
        · subst hmid
          exact ⟨⟨data.meter_id, true, some (formatNaive now)⟩,
            by simp [applyOp, statusOf, hdb, upsertStatus_find?_self], rfl⟩
        · refine ⟨s, ?_, hon⟩
          simpa [applyOp, statusOf, hdb,
            upsertStatus_find?_other _ _ _ _ hmid] using hs

theorem c9_online_latched_witness :
    ∃ s,
      statusOf ([Op.ingest badData demoNow false false, Op.listMeters,
          Op.readings "meter_001" 24 demoQNow].foldl applyOp demoDB)
        "meter_001" = some s ∧ s.online = true :=
  c9_online_latched demoDB _ "meter_001"
    ⟨⟨"meter_001", true, some "2024-01-01 12:00:05"⟩, by decide, rfl⟩

/-- C4: the meter listing returns exactly the active meters — every listed
entry corresponds to an `is_active` meter row and never to an inactive one
(meter ids being unique), every active meter is listed — and each entry is
joined with its status row: a meter without a status row is reported with
`online = false` and `last_update` null, one with a status row reports
that row's fields. -/
theorem c4_meter_listing (db : DB)
    (hids : (db.meters.map (fun m => m.id)).Nodup) :
    (∀ m ∈ db.meters, m.is_active = false →
      ∀ o ∈ get_meters db, o.meter_id ≠ m.id) ∧
    (∀ m ∈ db.meters, m.is_active = true →
      ∃ o ∈ get_meters db, o.meter_id = m.id) ∧
    (∀ o ∈ get_meters db,
      (statusOf db o.meter_id = none →
        o.online = false ∧ o.last_update = none) ∧
      (∀ s, statusOf db o.meter_id = some s →
        o.online = s.online ∧ o.last_update = s.last_update)) := by
  have hshape : ∀ o ∈ get_meters db, ∃ m ∈ db.meters, m.is_active = true ∧
      o.meter_id = m.id ∧
      o = (match db.meter_status.find? (fun s => s.meter_id == m.id) with
           | some s => (⟨m.id, s.online, s.last_update⟩ : MeterOut)
           | none => ⟨m.id, false, none⟩) := by
    intro o ho
    obtain ⟨m, hm, rfl⟩ := List.mem_map.mp ho
    obtain ⟨hmem, hact⟩ := List.mem_filter.mp hm
    refine ⟨m, hmem, by simpa using hact, ?_, rfl⟩
    cases db.meter_status.find? (fun s => s.meter_id == m.id) <;> rfl
  refine ⟨?_, ?_, ?_⟩
  · intro m hm hinact o ho hoid
    obtain ⟨m', hm', hact', hoid', _⟩ := hshape o ho
    have : m' = m :=
      List.inj_on_of_nodup_map hids hm' hm (hoid' ▸ hoid)
    rw [this] at hact'
    exact absurd hact' (by simp [hinact])
  · intro m hm hact
    refine ⟨(match db.meter_status.find? (fun s => s.meter_id == m.id) with
             | some s => (⟨m.id, s.online, s.last_update⟩ : MeterOut)
             | none => ⟨m.id, false, none⟩), ?_, ?_⟩
    · exact List.mem_map.mpr ⟨m, List.mem_filter.mpr ⟨hm, by simp [hact]⟩, rfl⟩
    · cases db.meter_status.find? (fun s => s.meter_id == m.id) <;> rfl
  · intro o ho
    obtain ⟨m, hm, hact, hoid, hform⟩ := hshape o ho
    constructor
    · intro hnone
      rw [statusOf, hoid] at hnone
      rw [hform]
      cases hfind : db.meter_status.find? (fun s => s.meter_id == m.id) with
      | none => exact ⟨rfl, rfl⟩
      | some s => rw [hfind] at hnone; exact absurd hnone (by simp)
    · intro s hs
      rw [statusOf, hoid] at hs
      rw [hform]
      cases hfind : db.meter_status.find? (fun s => s.meter_id == m.id) with
      | none => rw [hfind] at hs; exact absurd hs (by simp)
      | some s' =>
        rw [hfind] at hs
        cases hs
        exact ⟨rfl, rfl⟩

theorem c4_meter_listing_witness :
    (∃ o ∈ get_meters demoDB, o.meter_id = "meter_002") ∧
    (∀ o ∈ get_meters demoDB,
      statusOf demoDB o.meter_id = none →
        o.online = false ∧ o.last_update = none) := by
  have h := c4_meter_listing demoDB (by decide)
  exact ⟨h.2.1 ⟨"meter_002", "Secondary meter A", true⟩ (by decide) (by decide),
    fun o ho => (h.2.2 o ho).1⟩

/-- C5: for every meter id and `hours`, the readings response has at most
100 entries, every consecutive pair is non-increasing by timestamp, and
every entry is the reconstruction of a stored row of that meter whose
timestamp is at or after the window cutoff
`datetime(now, -hours hours)`. -/
theorem c5_readings_bounded (db : DB) (mid : String) (hours : Int)
    (now : AwareDT) :
    (get_meter_readings db mid hours now).readings.length ≤ 100 ∧
    List.Pairwise
      (fun a b : ReadingOut => strLe b.timestamp a.timestamp = true)
      (get_meter_readings db mid hours now).readings ∧
    ∀ ro ∈ (get_meter_readings db mid hours now).readings,
      ∃ row ∈ db.meter_readings, row.meter_id = mid ∧
        (∃ c, cutoffString now hours = some c ∧
          strLe c row.timestamp = true) ∧
        ro = reconstruct row := by
  cases h : cutoffString now hours with
  | none => simp [get_meter_readings, h]
  | some c =>
    simp only [get_meter_readings, h]
    refine ⟨?_, ?_, ?_⟩
    · rw [List.length_map, List.length_take]
      exact inf_le_left
    · rw [List.pairwise_map]
      exact List.Pairwise.sublist (List.take_sublist _ _)
        (List.sorted_insertionSort tsDesc _)
    · intro ro hro
      obtain ⟨row, hrow, rfl⟩ := List.mem_map.mp hro
      have hrow2 : row ∈ (db.meter_readings.filter
          (fun r => r.meter_id == mid && strLe c r.timestamp)).insertionSort
            tsDesc :=
        (List.take_sublist _ _).subset hrow
      have hrow3 := (List.mem_insertionSort tsDesc).mp hrow2
      obtain ⟨hmem, hpred⟩ := List.mem_filter.mp hrow3
      obtain ⟨hmid, hle⟩ : (row.meter_id == mid) = true ∧
          strLe c row.timestamp = true := by simpa using hpred
      exact ⟨row, hmem, by simpa using hmid, ⟨c, rfl, hle⟩, rfl⟩

theorem c5_readings_bounded_witness :
    ∃ row ∈ demoDB.meter_readings, row.meter_id = "meter_001" ∧
      (∃ c, cutoffString demoQNow 24 = some c ∧
        strLe c row.timestamp = true) ∧
      reconstruct (mkReadingRow demoData "2024-01-01 12:00:00") =
        reconstruct row :=
  (c5_readings_bounded demoDB "meter_001" 24 demoQNow).2.2
    (reconstruct (mkReadingRow demoData "2024-01-01 12:00:00")) (by decide)

/-- C6: measurement keys absent from an incoming group mapping are stored
as null (first conjunct, over the shared key table — and likewise for a
present optional mapping, second conjunct); unknown extra keys added to
any group mapping leave the stored row unchanged (third block); an
entirely absent `reactive_power`/`apparent_power` mapping stores null in
all four of its columns, and is indistinguishable in storage from a
present mapping whose four sub-fields are null (final block). -/
theorem c6_field_extraction (data : MeterData) (ts : String) :
    (∀ t ∈ fieldTable, (t.2.1 data).lookup t.1 = none →
      t.2.2 (mkReadingRow data ts) = none) ∧
    (∀ t ∈ optFieldTable, ∀ m, t.2.1 data = some m → m.lookup t.1 = none →
      t.2.2 (mkReadingRow data ts) = none) ∧
    ((∀ k v, k ∉ ["V_RN", "V_YN", "V_BN", "V_Avg", "V_RY", "V_YB", "V_BR"] →
      mkReadingRow { data with voltages := (k, v) :: data.voltages } ts =
        mkReadingRow data ts) ∧
     (∀ k v, k ∉ ["I_R", "I_Y", "I_B", "I_N"] →
      mkReadingRow { data with currents := (k, v) :: data.currents } ts =
        mkReadingRow data ts) ∧
     (∀ k v, k ∉ ["P_R", "P_Y", "P_B", "P_Total"] →
      mkReadingRow { data with power := (k, v) :: data.power } ts =
        mkReadingRow data ts) ∧
     (∀ k v, k ∉ ["PF_R", "PF_Y", "PF_B", "PF_Avg"] →
      mkReadingRow { data with power_factors := (k, v) :: data.power_factors }
        ts = mkReadingRow data ts) ∧
     (∀ k v m, data.reactive_power = some m →
      k ∉ ["Q_R", "Q_Y", "Q_B", "Q_Total"] →
      mkReadingRow { data with reactive_power := some ((k, v) :: m) } ts =
        mkReadingRow data ts) ∧
     (∀ k v m, data.apparent_power = some m →
      k ∉ ["S_R", "S_Y", "S_B", "S_Total"] →
      mkReadingRow { data with apparent_power := some ((k, v) :: m) } ts =
        mkReadingRow data ts)) ∧
    ((data.reactive_power = none →
      (mkReadingRow data ts).reactive_power_r = none ∧
      (mkReadingRow data ts).reactive_power_y = none ∧
      (mkReadingRow data ts).reactive_power_b = none ∧
      (mkReadingRow data ts).reactive_power_total = none) ∧
     (data.apparent_power = none →
      (mkReadingRow data ts).apparent_power_r = none ∧
      (mkReadingRow data ts).apparent_power_y = none ∧
      (mkReadingRow data ts).apparent_power_b = none ∧
      (mkReadingRow data ts).apparent_power_total = none) ∧
     (∀ m, dget m "Q_R" = none → dget m "Q_Y" = none →
      dget m "Q_B" = none → dget m "Q_Total" = none →
      mkReadingRow { data with reactive_power := some m } ts =
        mkReadingRow { data with reactive_power := none } ts) ∧
     (∀ m, dget m "S_R" = none → dget m "S_Y" = none →
      dget m "S_B" = none → dget m "S_Total" = none →
      mkReadingRow { data with apparent_power := some m } ts =
        mkReadingRow { data with apparent_power := none } ts)) := by
  refine ⟨?_, ?_, ?_, ?_⟩
  · intro t ht h
    fin_cases ht <;> simp [mkReadingRow, dget, h]
  · intro t ht m hm h
    fin_cases ht <;> dsimp only at hm h ⊢ <;>
      simp [mkReadingRow, optDget_some, hm, dget, h]
  · refine ⟨?_, ?_, ?_, ?_, ?_, ?_⟩ <;>
      first
      | (intro k v hk
         simp only [List.mem_cons, List.not_mem_nil, or_false, not_or] at hk
         obtain ⟨h1, h2, h3, h4, h5, h6, h7⟩ := hk
         simp [mkReadingRow, dget_cons_ne h1, dget_cons_ne h2,
           dget_cons_ne h3, dget_cons_ne h4, dget_cons_ne h5,
           dget_cons_ne h6, dget_cons_ne h7])
      | (intro k v hk
         simp only [List.mem_cons, List.not_mem_nil, or_false, not_or] at hk
         obtain ⟨h1, h2, h3, h4⟩ := hk
         simp [mkReadingRow, dget_cons_ne h1, dget_cons_ne h2,
           dget_cons_ne h3, dget_cons_ne h4])
      | (intro k v m hm hk
         simp only [List.mem_cons, List.not_mem_nil, or_false, not_or] at hk
         obtain ⟨h1, h2, h3, h4⟩ := hk
         simp [mkReadingRow, hm, optDget_some, dget_cons_ne h1,
           dget_cons_ne h2, dget_cons_ne h3, dget_cons_ne h4])
  · refine ⟨fun h => ?_, fun h => ?_, fun m h1 h2 h3 h4 => ?_,
      fun m h1 h2 h3 h4 => ?_⟩
    · simp [mkReadingRow, optDget, h]
    · simp [mkReadingRow, optDget, h]
    · simp [mkReadingRow, optDget, optDget_some, h1, h2, h3, h4]
    · simp [mkReadingRow, optDget, optDget_some, h1, h2, h3, h4]

theorem c6_field_extraction_witness :
    (mkReadingRow demoData "2024-01-01 12:00:00").voltage_y = none ∧
    mkReadingRow
        { demoData with voltages := ("X_UNKNOWN", some 7) :: demoData.voltages }
        "2024-01-01 12:00:00" =
      mkReadingRow demoData "2024-01-01 12:00:00" ∧
    (mkReadingRow demoData "2024-01-01 12:00:00").reactive_power_r = none ∧
    mkReadingRow { demoData with reactive_power := some [("Q_R", none)] }
        "2024-01-01 12:00:00" =
      mkReadingRow { demoData with reactive_power := none }
        "2024-01-01 12:00:00" := by
  have h := c6_field_extraction demoData "2024-01-01 12:00:00"
  refine ⟨?_, ?_, ?_, ?_⟩
  · exact h.1 ("V_YN", (fun d => d.voltages), (fun r => r.voltage_y))
      (by simp [fieldTable]) (by decide)
  · exact h.2.2.1.1 "X_UNKNOWN" (some 7) (by decide)
  · exact (h.2.2.2.1 (by decide)).1
  · exact h.2.2.2.2.2.1 [("Q_R", none)] (by decide) (by decide) (by decide)
      (by decide)

/-- C1 counterexample: the readings query is capped at the 100 newest rows,
so a payload ingested into a store that already holds 100 newer readings
for its meter is not returned even though the window amply covers it — the
response contains no reading carrying the ingested `V_RN` value, refuting
the unconditional round-trip claim. -/
theorem c1_counterexample :
    (receive_meter_data crowdedDB cePayload ceNow false false).2.status =
      "success" ∧
    normalizeTimestamp cePayload.timestamp = some "2025-01-01 00:00:00" ∧
    cutoffString ceNow 48 = some "2024-12-31 00:30:00" ∧
    strLe "2024-12-31 00:30:00" "2025-01-01 00:00:00" = true ∧
    ((get_meter_readings
        (receive_meter_data crowdedDB cePayload ceNow false false).1 "m1" 48
        ceNow).readings.all
      (fun ro => decide (dget ro.voltages "V_RN" ≠ some 230))) = true := by
  decide

/-- C1 (amended): for every valid ingestion payload, a subsequent readings
query for that meter whose window covers the stored timestamp returns a
reading reconstructing exactly the ingested field values — each mnemonic
key mapping to the ingested value, keys absent from the input mapping to
null — provided fewer than 100 readings of that meter already lie in the
window (otherwise the new reading can be crowded out by the
100-row limit). -/
theorem c1_round_trip (db : DB) (data : MeterData) (now qnow : AwareDT)
    (hours : Int) (ts c : String)
    (hts : normalizeTimestamp data.timestamp = some ts)
    (hcut : cutoffString qnow hours = some c)
    (hwin : strLe c ts = true)
    (hroom : (db.meter_readings.filter
        (fun r => r.meter_id == data.meter_id && strLe c r.timestamp)).length
      ≤ 99) :
    ∃ ro ∈ (get_meter_readings
        (receive_meter_data db data now false false).1 data.meter_id hours
        qnow).readings,
      ro.timestamp = ts ∧
      (∀ k ∈ ["V_RN", "V_YN", "V_BN", "V_Avg", "V_RY", "V_YB", "V_BR"],
        dget ro.voltages k = dget data.voltages k) ∧
      (∀ k ∈ ["I_R", "I_Y", "I_B", "I_N"],
        dget ro.currents k = dget data.currents k) ∧
      (∀ k ∈ ["P_R", "P_Y", "P_B", "P_Total"],
        dget ro.power k = dget data.power k) ∧
      (∀ k ∈ ["Q_R", "Q_Y", "Q_B", "Q_Total"],
        dget ro.reactive_power k = optDget data.reactive_power k) ∧
      (∀ k ∈ ["S_R", "S_Y", "S_B", "S_Total"],
        dget ro.apparent_power k = optDget data.apparent_power k) ∧
      (∀ k ∈ ["PF_R", "PF_Y", "PF_B", "PF_Avg"],
        dget ro.power_factors k = dget data.power_factors k) ∧
      ro.frequency = data.frequency := by
  have hdb : (receive_meter_data db data now false false).1.meter_readings =
      db.meter_readings ++ [mkReadingRow data ts] := by
    simp [receive_meter_data, hts]
  have hpass : ((mkReadingRow data ts).meter_id == data.meter_id &&
      strLe c (mkReadingRow data ts).timestamp) = true := by
    simp [mkReadingRow, hwin]
  have hfil : (receive_meter_data db data now false
      false).1.meter_readings.filter
        (fun r => r.meter_id == data.meter_id && strLe c r.timestamp) =
      db.meter_readings.filter
        (fun r => r.meter_id == data.meter_id && strLe c r.timestamp) ++
      [mkReadingRow data ts] := by
    rw [hdb, List.filter_append]
    simp [hpass]
  have hlen : ((receive_meter_data db data now
      false false).1.meter_readings.filter
        (fun r => r.meter_id == data.meter_id &&
          strLe c r.timestamp)).length ≤ 100 := by
    rw [hfil, List.length_append]
    simpa using hroom
  have hmem : mkReadingRow data ts ∈
      ((receive_meter_data db data now false false).1.meter_readings.filter
        (fun r => r.meter_id == data.meter_id &&
          strLe c r.timestamp)).insertionSort tsDesc := by
    rw [List.mem_insertionSort, hfil]
    exact List.mem_append_right _ (List.mem_singleton.mpr rfl)
  have htake : (((receive_meter_data db data now
      false false).1.meter_readings.filter
        (fun r => r.meter_id == data.meter_id &&
          strLe c r.timestamp)).insertionSort tsDesc).take 100 =
      ((receive_meter_data db data now false false).1.meter_readings.filter
        (fun r => r.meter_id == data.meter_id &&
          strLe c r.timestamp)).insertionSort tsDesc :=
    List.take_of_length_le (by rw [List.length_insertionSort]; exact hlen)
  refine ⟨reconstruct (mkReadingRow data ts), ?_, rfl, ?_, ?_, ?_, ?_, ?_,
    ?_, rfl⟩
  · simp only [get_meter_readings, hcut]
    rw [htake]
    exact List.mem_map_of_mem reconstruct hmem
  · intro k hk
    fin_cases hk <;> simp [reconstruct, mkReadingRow, dget, List.lookup]
  · intro k hk
    fin_cases hk <;> simp [reconstruct, mkReadingRow, dget, List.lookup]
  · intro k hk
    fin_cases hk <;> simp [reconstruct, mkReadingRow, dget, List.lookup]
  · intro k hk
    fin_cases hk <;> simp [reconstruct, mkReadingRow, dget, List.lookup]
  · intro k hk
    fin_cases hk <;> simp [reconstruct, mkReadingRow, dget, List.lookup]
  · intro k hk
    fin_cases hk <;> simp [reconstruct, mkReadingRow, dget, List.lookup]

theorem c1_round_trip_witness :
    ∃ ro ∈ (get_meter_readings
        (receive_meter_data initDB demoData demoNow false false).1
        demoData.meter_id 24 demoQNow).readings,
      ro.timestamp = "2024-01-01 12:00:00" ∧
      (∀ k ∈ ["V_RN", "V_YN", "V_BN", "V_Avg", "V_RY", "V_YB", "V_BR"],
        dget ro.voltages k = dget demoData.voltages k) ∧
      (∀ k ∈ ["I_R", "I_Y", "I_B", "I_N"],
        dget ro.currents k = dget demoData.currents k) ∧
      (∀ k ∈ ["P_R", "P_Y", "P_B", "P_Total"],
        dget ro.power k = dget demoData.power k) ∧
      (∀ k ∈ ["Q_R", "Q_Y", "Q_B", "Q_Total"],
        dget ro.reactive_power k = optDget demoData.reactive_power k) ∧
      (∀ k ∈ ["S_R", "S_Y", "S_B", "S_Total"],
        dget ro.apparent_power k = optDget demoData.apparent_power k) ∧
      (∀ k ∈ ["PF_R", "PF_Y", "PF_B", "PF_Avg"],
        dget ro.power_factors k = dget demoData.power_factors k) ∧
      ro.frequency = demoData.frequency :=
  c1_round_trip initDB demoData demoNow demoQNow 24 "2024-01-01 12:00:00"
    "2023-12-31 13:00:00" (by decide) (by decide) (by decide) (by decide)

end EnergyMon
